import Mathlib

/-!
Shallow embedding of `libqtile/backend/wayland/window.py`: the window
entity, its floating/fullscreen/maximized/minimized state machine, the
placement routine, the mapped/stacking lists (Core.mapped_windows for
ordinary windows, per-output per-layer lists for layer Static windows),
and the popup constraint computation.

Python exceptions are modelled by an `exn` field on the state: a raise
sets `exn` and every subsequent statement of the operation (and every
subsequent operation) is skipped, while mutations performed before the
raise are kept, matching Python semantics.  The surface is foreign state:
`surface_width`/`surface_height` are its current committed size (read by
the `width`/`height` properties); `surface.set_size` only records a
request (`last_size`, `size_requests`) and never changes the committed
size.
-/

namespace QtileWl

/-- The five float states of `libqtile.backend.base.FloatStates`. -/
inductive FloatStates where
  | NOT_FLOATING
  | FLOATING
  | FULLSCREEN
  | MAXIMIZED
  | MINIMIZED
deriving DecidableEq, Repr

/-- A screen, as read by the fullscreen/maximized setters: full bounds
`x, y, width, height` and usable (non-reserved) area `dx, dy, dwidth,
dheight`. -/
structure Screen where
  x : Int
  y : Int
  width : Int
  height : Int
  dx : Int
  dy : Int
  dwidth : Int
  dheight : Int
  index : Nat
deriving DecidableEq, Repr

/-- A group (workspace): the window code only reads `group.screen`
(`None` when the group has no active screen).  `Window._group = 0`
(no group) is modelled as `group = none` on the window state. -/
structure Group where
  screen : Option Screen
deriving DecidableEq, Repr

/-- The mutable state visible to one `Window` object: its own fields,
the shared `core.mapped_windows` stacking list (as window ids), the
ambient `qtile.find_closest_screen`, the count of `float_change` hook
firings, and the exception flag. -/
structure World where
  wid : Nat
  x : Int
  y : Int
  surface_width : Int
  surface_height : Int
  last_size : Option (Int × Int)
  size_requests : Nat
  borderwidth : Int
  float_state : FloatStates
  float_x : Int
  float_y : Int
  float_width : Int
  float_height : Int
  mapped : Bool
  mapped_windows : List Nat
  group : Option Group
  find_closest_screen : Int → Int → Option Screen
  hooks_float_change : Nat
  exn : Option String

/-- Record a raised Python exception: state mutated so far is kept. -/
def raiseExn (w : World) (msg : String) : World :=
  { w with exn := some msg }

/-- Model of the `Window.mapped` setter: sets `_mapped`, then appends to
`core.mapped_windows` if absent (when mapping) or removes if present
(when unmapping). -/
def set_mapped (w : World) (m : Bool) : World :=
  let w := { w with mapped := m }
  if m then
    if w.wid ∈ w.mapped_windows then w
    else { w with mapped_windows := w.mapped_windows ++ [w.wid] }
  else
    if w.wid ∈ w.mapped_windows then
      { w with mapped_windows := w.mapped_windows.erase w.wid }
    else w

/-- Model of `Window._on_map`: sets `mapped = True` (then focuses the window,
an external effect). -/
def on_map (w : World) : World :=
  set_mapped w true

/-- Model of `Window._on_unmap`: sets `mapped = False` (then damages and clears
keyboard focus, external effects). -/
def on_unmap (w : World) : World :=
  set_mapped w false

/-- Model of `Window.hide`: emits the unmap signal only when currently mapped. -/
def hide (w : World) : World :=
  if w.mapped then on_unmap w else w

/-- Model of `Window.unhide`: emits the map signal only when currently unmapped. -/
def unhide (w : World) : World :=
  if w.mapped then w else on_map w

/-- A layout margin as accepted by `Window.place`: a scalar expanded to
all four sides, or a 4-sided list `[top, right, bottom, left]`. -/
inductive Margin where
  | scalar (m : Int)
  | four (top right bottom left : Int)
deriving DecidableEq, Repr

/-- The `[top, right, bottom, left]` list a margin expands to
(`margin = [margin] * 4` for a scalar). -/
def Margin.sides : Margin → Int × Int × Int × Int
  | .scalar m => (m, m, m, m)
  | .four t r b l => (t, r, b, l)

/-- Model of `Window.place`: applies the margin by shrinking the rectangle
(`x += margin[3]; y += margin[0]; width -= margin[1] + margin[3];
height -= margin[0] + margin[2]`), stores `x, y`, requests the new size
from the surface, repaints borders, and — when `above` — removes the
window from `core.mapped_windows` and re-appends it.  The unguarded
`list.remove` raises `ValueError` when the window is absent; the raise
happens after `x, y` and the size request were already applied. -/
def place (w : World) (x y width height borderwidth : Int)
    (above : Bool) (margin : Option Margin) : World :=
  let q : Int × Int × Int × Int :=
    match margin with
    | none => (x, y, width, height)
    | some m =>
      let s := m.sides
      (x + s.2.2.2, y + s.1, width - (s.2.1 + s.2.2.2), height - (s.1 + s.2.2.1))
  let w := { w with
    x := q.1, y := q.2.1,
    last_size := some (q.2.2.1, q.2.2.2),
    size_requests := w.size_requests + 1,
    borderwidth := borderwidth }
  if above then
    if w.wid ∈ w.mapped_windows then
      { w with mapped_windows := w.mapped_windows.erase w.wid ++ [w.wid] }
    else
      raiseExn w "ValueError: list.remove(x): x not in list"
  else w

/-- Model of `Window._reconfigure_floating`: MINIMIZED hides the surface, every
other target state places (above, no margin); then, if the float state
actually changes, stores it, marks the group floating when there is one,
and fires `float_change` exactly once.  A `ValueError` escaping `place`
aborts before the state change. -/
def reconfigure_floating (w : World) (x y wd ht : Int)
    (new_float_state : FloatStates) : World :=
  let w1 :=
    if new_float_state = FloatStates.MINIMIZED then hide w
    else place w x y wd ht w.borderwidth true none
  if w1.exn.isSome then w1
  else if w1.float_state ≠ new_float_state then
    { w1 with
      float_state := new_float_state,
      hooks_float_change := w1.hooks_float_change + 1 }
  else w1

/-- Model of `Window._enablefloating` (geometry arguments are unused on the
MINIMIZED path, where the source passes `None`). -/
def enablefloating (w : World) (x y wd ht : Int)
    (new_float_state : FloatStates) : World :=
  reconfigure_floating w x y wd ht new_float_state

/-- Model of the `Window.floating` setter.  `floating = True` from NOT_FLOATING with
a group that has a screen places at the remembered float geometry offset
by the screen origin; with no group or no screen it only sets FLOATING
(the early-floating path, which fires no hook).  `floating = False` from
any floating state saves the current surface size when plain FLOATING,
sets NOT_FLOATING, then calls `self.group.mark_floating` — which raises
`AttributeError` when `group` is `0` — and finally fires `float_change`. -/
def set_floating (w : World) (do_float : Bool) : World :=
  if w.exn.isSome then w
  else if do_float = true ∧ w.float_state = FloatStates.NOT_FLOATING then
    match w.group with
    | some g =>
      match g.screen with
      | some screen =>
        enablefloating w (screen.x + w.float_x) (screen.y + w.float_y)
          w.float_width w.float_height FloatStates.FLOATING
      | none => { w with float_state := FloatStates.FLOATING }
    | none => { w with float_state := FloatStates.FLOATING }
  else if do_float = false ∧ w.float_state ≠ FloatStates.NOT_FLOATING then
    let w1 :=
      if w.float_state = FloatStates.FLOATING then
        { w with float_width := w.surface_width, float_height := w.surface_height }
      else w
    let w2 := { w1 with float_state := FloatStates.NOT_FLOATING }
    match w2.group with
    | some _ =>
      { w2 with hooks_float_change := w2.hooks_float_change + 1 }
    | none =>
      raiseExn w2 "AttributeError: int object has no attribute mark_floating"
  else w

/-- Model of the `Window.fullscreen` setter.  `fullscreen = True` evaluates
`self.group.screen or self.qtile.find_closest_screen(self.x, self.y)` —
raising `AttributeError` when `group` is `0` — and, when no screen is
found either way, raises on `screen.x`; otherwise it places at the full
screen bounds with target FULLSCREEN.  `fullscreen = False` delegates to
`floating = False` only when currently FULLSCREEN. -/
def set_fullscreen (w : World) (do_full : Bool) : World :=
  if w.exn.isSome then w
  else if do_full then
    match w.group with
    | none => raiseExn w "AttributeError: int object has no attribute screen"
    | some g =>
      match (match g.screen with
             | some s => some s
             | none => w.find_closest_screen w.x w.y) with
      | none => raiseExn w "AttributeError: NoneType object has no attribute x"
      | some s =>
        enablefloating w s.x s.y s.width s.height FloatStates.FULLSCREEN
  else if w.float_state = FloatStates.FULLSCREEN then
    set_floating w false
  else w

/-- Model of the `Window.maximized` setter: mirrors fullscreen but uses the usable
area `dx, dy, dwidth, dheight` and target MAXIMIZED. -/
def set_maximized (w : World) (do_maximize : Bool) : World :=
  if w.exn.isSome then w
  else if do_maximize then
    match w.group with
    | none => raiseExn w "AttributeError: int object has no attribute screen"
    | some g =>
      match (match g.screen with
             | some s => some s
             | none => w.find_closest_screen w.x w.y) with
      | none => raiseExn w "AttributeError: NoneType object has no attribute dx"
      | some s =>
        enablefloating w s.dx s.dy s.dwidth s.dheight FloatStates.MAXIMIZED
  else if w.float_state = FloatStates.MAXIMIZED then
    set_floating w false
  else w

/-- Model of the `Window.minimized` setter: `True` re-enters the common routine with
target MINIMIZED (which hides instead of placing) unless already
MINIMIZED; `False` delegates to `floating = False` only when currently
MINIMIZED.  The geometry arguments are `None` in the source and unused. -/
def set_minimized (w : World) (do_minimize : Bool) : World :=
  if w.exn.isSome then w
  else if do_minimize then
    if w.float_state ≠ FloatStates.MINIMIZED then
      enablefloating w 0 0 0 0 FloatStates.MINIMIZED
    else w
  else if w.float_state = FloatStates.MINIMIZED then
    set_floating w false
  else w

/-- The rectangle `Window._tweak_float` computes before placing:
explicit values default to the current geometry, deltas are added, and
negative height/width are clamped to 0. -/
def tweak_rect (w : World) (x? y? : Option Int) (dx dy : Int)
    (w? h? : Option Int) (dw dh : Int) : Int × Int × Int × Int :=
  let x := x?.getD w.x + dx
  let y := y?.getD w.y + dy
  let wd := w?.getD w.surface_width + dw
  let ht := h?.getD w.surface_height + dh
  let ht := if ht < 0 then 0 else ht
  let wd := if wd < 0 then 0 else wd
  (x, y, wd, ht)

/-- Model of `Window._tweak_float`: computes the clamped rectangle, moves the
window to the group of the screen under its centre when that differs
from its current group's screen (Python `//` is floor division), then
re-enters the floating reconfiguration with target FLOATING. -/
def tweak_float (w : World) (x? y? : Option Int) (dx dy : Int)
    (w? h? : Option Int) (dw dh : Int) : World :=
  if w.exn.isSome then w
  else
    let q := tweak_rect w x? y? dx dy w? h? dw dh
    let scr? := w.find_closest_screen
      (w.x + Int.fdiv w.surface_width 2) (w.y + Int.fdiv w.surface_height 2)
    let w1 :=
      match w.group, scr? with
      | some g, some s =>
        if g.screen ≠ some s then { w with group := some { screen := some s } }
        else w
      | _, _ => w
    reconfigure_floating w1 q.1 q.2.1 q.2.2.1 q.2.2.2 FloatStates.FLOATING

/-- The mutable state visible to one `Static` window: the `is_layer`
flag, the layer index from `surface.client_pending.layer`, the owning
output's per-layer lists `output.layers`, and the shared
`core.mapped_windows` list. -/
structure StaticWorld where
  wid : Nat
  mapped : Bool
  is_layer : Bool
  layer : Nat
  layers : Nat → List Nat
  mapped_windows : List Nat

/-- The designated stacking list of a `Static` window: the owning
output's list for its layer when `is_layer`, else `core.mapped_windows`. -/
def StaticWorld.tracker (s : StaticWorld) : List Nat :=
  if s.is_layer then s.layers s.layer else s.mapped_windows

/-- Model of the `Static.mapped` setter: sets `_mapped`, picks the tracker
(`output.layers[surface.client_pending.layer]` for layer surfaces, else
`core.mapped_windows`), appends if absent / removes if present, and for
layer surfaces reorganises the output's layers (external effect). -/
def static_set_mapped (s : StaticWorld) (m : Bool) : StaticWorld :=
  let tracker := if s.is_layer then s.layers s.layer else s.mapped_windows
  let tracker :=
    if m then
      if s.wid ∈ tracker then tracker else tracker ++ [s.wid]
    else
      if s.wid ∈ tracker then tracker.erase s.wid else tracker
  if s.is_layer then
    { s with mapped := m,
             layers := fun i => if i = s.layer then tracker else s.layers i }
  else
    { s with mapped := m, mapped_windows := tracker }

/-- Model of `Static._on_map`: sets `mapped = True` (damage and layer reflow are
external effects). -/
def static_on_map (s : StaticWorld) : StaticWorld :=
  static_set_mapped s true

/-- Model of `Static._on_unmap`: sets `mapped = False` (focus clearing, layer
reflow and damage are external effects). -/
def static_on_unmap (s : StaticWorld) : StaticWorld :=
  static_set_mapped s false

/-- A map/unmap signal or a direct write to the `mapped` property. -/
inductive MapEvent where
  | map_sig
  | unmap_sig
  | set (b : Bool)
deriving DecidableEq, Repr

/-- Dispatch one map/unmap signal or mapped-setter write on a `Window`. -/
def windowStep (w : World) (e : MapEvent) : World :=
  match e with
  | .map_sig => on_map w
  | .unmap_sig => on_unmap w
  | .set b => set_mapped w b

/-- Dispatch one map/unmap signal or mapped-setter write on a `Static`. -/
def staticStep (s : StaticWorld) (e : MapEvent) : StaticWorld :=
  match e with
  | .map_sig => static_on_map s
  | .unmap_sig => static_on_unmap s
  | .set b => static_set_mapped s b

/-- The mapped/stacking invariant for an ordinary `Window`: `_mapped`
is true exactly when the window id occurs exactly once in
`core.mapped_windows`, and it never occurs more than once. -/
def windowMapInv (w : World) : Prop :=
  (w.mapped = true ↔ w.mapped_windows.count w.wid = 1) ∧
    w.mapped_windows.count w.wid ≤ 1

/-- The mapped/stacking invariant for a `Static` window, over its
designated tracker list. -/
def staticMapInv (s : StaticWorld) : Prop :=
  (s.mapped = true ↔ s.tracker.count s.wid = 1) ∧
    s.tracker.count s.wid ≤ 1

instance (w : World) : Decidable (windowMapInv w) := by
  unfold windowMapInv; infer_instance

instance (s : StaticWorld) : Decidable (staticMapInv s) := by
  unfold staticMapInv; infer_instance

/-- The geometry of an output, as returned by `output.get_geometry()`;
also used for the popup constraint box (`wlroots` `Box`). -/
structure OutBox where
  x : Int
  y : Int
  width : Int
  height : Int
deriving DecidableEq, Repr

/-- An output as seen by the popup code: its layout geometry. -/
structure OutputM where
  geometry : OutBox
  oid : Nat
deriving DecidableEq, Repr

/-- The output-layout environment consumed by `XdgPopupWindow.__init__`:
`closest_point` and `output_at` (whose `.data` back-pointer is the
output; `None` when no output contains the point). -/
structure LayoutEnv where
  closest_point : Int → Int → Int × Int
  output_at : Int → Int → Option OutputM

/-- The parent of a new popup: an ordinary window (at desktop position
`x, y`) or another popup (carrying its own output and constraint box). -/
inductive PopupParent where
  | window (x y : Int)
  | popup (output : OutputM) (output_box : OutBox)

/-- Model of `XdgPopupWindow.__init__`, the output/constraint part: a nested
popup inherits its parent popup's output and constraint box; a
first-level popup takes its anchor geometry `geom`
(`xdg_popup.base.get_geometry()`), finds the closest layout point to the
anchor's desktop position, looks up the output there (raises on a null
`wlr_output`, modelled as `none`), and translates that output's geometry
by `(-lx, -ly)` (coordinates are integers, so Python's `round` is the
identity).  The returned box is the one passed to
`xdg_popup.unconstrain_from_box`. -/
def popup_init (env : LayoutEnv) (parent : PopupParent) (geom : OutBox) :
    Option (OutputM × OutBox) :=
  match parent with
  | .popup o b => some (o, b)
  | .window px py =>
    let p := env.closest_point (px + geom.x) (py + geom.y)
    match env.output_at p.1 p.2 with
    | none => none
    | some o =>
      some (o, { x := o.geometry.x - p.1, y := o.geometry.y - p.2,
                 width := o.geometry.width, height := o.geometry.height })

/-- One invocation of a float-state setter, for quantifying over the
four setters at once. -/
inductive SetterOp where
  | floating (b : Bool)
  | fullscreen (b : Bool)
  | maximized (b : Bool)
  | minimized (b : Bool)
deriving DecidableEq, Repr

/-- Dispatch one float-state setter invocation. -/
def runSetter (w : World) : SetterOp → World
  | .floating b => set_floating w b
  | .fullscreen b => set_fullscreen w b
  | .maximized b => set_maximized w b
  | .minimized b => set_minimized w b

/-- The append-if-absent / remove-if-present tracker update shared by
the mapped setters (proof-side characterisation). -/
def update_tracker (wid : Nat) (m : Bool) (tr : List Nat) : List Nat :=
  if m then
    if wid ∈ tr then tr else tr ++ [wid]
  else
    if wid ∈ tr then tr.erase wid else tr

/-- A concrete screen for instantiating theorems. -/
def scr0 : Screen :=
  { x := 0, y := 0, width := 800, height := 600,
    dx := 0, dy := 20, dwidth := 800, dheight := 580, index := 0 }

/-- A concrete group holding `scr0`. -/
def g0 : Group := { screen := some scr0 }

/-- A concrete fresh window: 50×50 surface, no group, NOT_FLOATING,
unmapped, empty stacking list. -/
def w0 : World :=
  { wid := 1, x := 0, y := 0, surface_width := 50, surface_height := 50,
    last_size := none, size_requests := 0, borderwidth := 2,
    float_state := FloatStates.NOT_FLOATING,
    float_x := 10, float_y := 10, float_width := 50, float_height := 50,
    mapped := false, mapped_windows := [], group := none,
    find_closest_screen := fun _ _ => none,
    hooks_float_change := 0, exn := none }

/-- A concrete window with a workspace on `scr0`, mapped and present
once in the stacking list. -/
def w1 : World :=
  { w0 with group := some g0, mapped := true, mapped_windows := [1],
            find_closest_screen := fun _ _ => some scr0 }

/-- A concrete window with a workspace whose screen is gone and no
closest screen either. -/
def w2 : World := { w0 with group := some { screen := none } }

/-- A concrete layer Static window on layer 2 with empty layer lists. -/
def s0 : StaticWorld :=
  { wid := 7, mapped := false, is_layer := true, layer := 2,
    layers := fun _ => [], mapped_windows := [] }

/-- A concrete non-layer Static window. -/
def s1 : StaticWorld :=
  { wid := 8, mapped := false, is_layer := false, layer := 0,
    layers := fun _ => [], mapped_windows := [3] }

/-- A concrete output at desktop origin (100, 0). -/
def out0 : OutputM :=
  { geometry := { x := 100, y := 0, width := 800, height := 600 }, oid := 0 }

/-- A concrete output layout: `closest_point` is the identity and every
point lies on `out0`. -/
def env0 : LayoutEnv :=
  { closest_point := fun a b => (a, b),
    output_at := fun _ _ => some out0 }

/-- A concrete popup anchor geometry at local (5, 5). -/
def geo0 : OutBox := { x := 5, y := 5, width := 20, height := 10 }

/-- A concrete inherited constraint box. -/
def bx0 : OutBox := { x := -5, y := -105, width := 800, height := 600 }

theorem set_mapped_eq (w : World) (m : Bool) :
    set_mapped w m =
      { w with mapped := m,
               mapped_windows := update_tracker w.wid m w.mapped_windows } := by
  cases m <;> by_cases h : w.wid ∈ w.mapped_windows <;>
    simp [set_mapped, update_tracker, h]

theorem hide_eq (w : World) :
    hide w =
      if w.mapped then
        { w with mapped := false,
                 mapped_windows := update_tracker w.wid false w.mapped_windows }
      else w := by
  cases hm : w.mapped <;> simp [hide, on_unmap, set_mapped_eq, hm]

theorem place_above_none_eq (w : World) (x y wd ht bw : Int) :
    place w x y wd ht bw true none =
      if w.wid ∈ w.mapped_windows then
        { w with x := x, y := y, last_size := some (wd, ht),
                 size_requests := w.size_requests + 1, borderwidth := bw,
                 mapped_windows := w.mapped_windows.erase w.wid ++ [w.wid] }
      else
        { w with x := x, y := y, last_size := some (wd, ht),
                 size_requests := w.size_requests + 1, borderwidth := bw,
                 exn := some "ValueError: list.remove(x): x not in list" } := by
  by_cases h : w.wid ∈ w.mapped_windows <;> simp [place, raiseExn, h]

theorem update_tracker_count (wid : Nat) (m : Bool) (tr : List Nat)
    (hle : tr.count wid ≤ 1) :
    (update_tracker wid m tr).count wid = if m then 1 else 0 := by
  unfold update_tracker
  cases m <;> by_cases h : wid ∈ tr <;> simp [h]
  · have h1 : 0 < tr.count wid := List.count_pos_iff.mpr h
    have := List.count_erase_self wid tr
    omega
  · exact List.count_eq_zero.mpr h
  · have h1 : 0 < tr.count wid := List.count_pos_iff.mpr h
    omega
  · have h0 : tr.count wid = 0 := List.count_eq_zero.mpr h
    simp [List.count_append, h0]

theorem windowStep_inv (w : World) (hw : windowMapInv w) (e : MapEvent) :
    windowMapInv (windowStep w e) := by
  obtain ⟨-, hle⟩ := hw
  have key : ∀ m : Bool, windowMapInv (set_mapped w m) := by
    intro m
    rw [set_mapped_eq]
    unfold windowMapInv
    simp only [update_tracker_count w.wid m w.mapped_windows hle]
    cases m <;> simp
  cases e with
  | map_sig => exact key true
  | unmap_sig => exact key false
  | set b => exact key b

theorem static_set_mapped_eq (s : StaticWorld) (m : Bool) :
    (static_set_mapped s m).mapped = m ∧
    (static_set_mapped s m).wid = s.wid ∧
    (static_set_mapped s m).tracker = update_tracker s.wid m s.tracker := by
  cases hl : s.is_layer <;>
    simp [static_set_mapped, StaticWorld.tracker, update_tracker, hl]

theorem staticStep_inv (s : StaticWorld) (hs : staticMapInv s) (e : MapEvent) :
    staticMapInv (staticStep s e) := by
  obtain ⟨-, hle⟩ := hs
  have key : ∀ m : Bool, staticMapInv (static_set_mapped s m) := by
    intro m
    obtain ⟨h1, h2, h3⟩ := static_set_mapped_eq s m
    unfold staticMapInv
    rw [h1, h2, h3, update_tracker_count s.wid m s.tracker hle]
    cases m <;> simp
  cases e with
  | map_sig => exact key true
  | unmap_sig => exact key false
  | set b => exact key b

/-- Claim C1: for every window, `mapped` is true iff the window occurs
exactly once in its designated stacking list (`core.mapped_windows` for
ordinary windows, the owning output's per-layer list for layer `Static`
windows), and this equivalence (together with never occurring more than
once) is preserved by every sequence of map/unmap signals and
mapped-setter writes. -/
theorem mapped_stacking_list_invariant :
    (∀ (w : World), windowMapInv w →
      ∀ (es : List MapEvent), windowMapInv (es.foldl windowStep w)) ∧
    (∀ (s : StaticWorld), staticMapInv s →
      ∀ (es : List MapEvent), staticMapInv (es.foldl staticStep s)) := by
  constructor
  · intro w hw es
    induction es generalizing w with
    | nil => exact hw
    | cons e es ih => exact ih _ (windowStep_inv w hw e)
  · intro s hs es
    induction es generalizing s with
    | nil => exact hs
    | cons e es ih => exact ih _ (staticStep_inv s hs e)

/-- Witness for C1 at concrete windows and a concrete signal sequence. -/
theorem mapped_stacking_list_invariant_witness :
    windowMapInv (List.foldl windowStep w0
      [MapEvent.map_sig, MapEvent.map_sig, MapEvent.unmap_sig, MapEvent.set true]) ∧
    staticMapInv (List.foldl staticStep s0
      [MapEvent.map_sig, MapEvent.unmap_sig, MapEvent.set true]) :=
  ⟨mapped_stacking_list_invariant.1 w0 (by decide) _,
   mapped_stacking_list_invariant.2 s0 (by decide) _⟩

/-- Claim C2: on a window in state FLOATING, `set_floating(true)`
followed by `set_floating(false)` returns `float_state` to NOT_FLOATING
and leaves `float_width`/`float_height` equal to the surface-reported
size observed immediately before the second call. -/
theorem floating_toggle_saves_size (w : World) (hexn : w.exn = none)
    (hfs : w.float_state = FloatStates.FLOATING) :
    (set_floating (set_floating w true) false).float_state =
      FloatStates.NOT_FLOATING ∧
    (set_floating (set_floating w true) false).float_width =
      (set_floating w true).surface_width ∧
    (set_floating (set_floating w true) false).float_height =
      (set_floating w true).surface_height := by
  have h1 : set_floating w true = w := by
    rw [set_floating]; simp [hexn, hfs]
  rw [h1]
  cases hg : w.group <;> simp [set_floating, hexn, hfs, hg, raiseExn]

/-- Witness for C2 at a concrete floating window. -/
theorem floating_toggle_saves_size_witness :
    (set_floating (set_floating { w1 with float_state := FloatStates.FLOATING } true)
        false).float_state = FloatStates.NOT_FLOATING ∧
    (set_floating (set_floating { w1 with float_state := FloatStates.FLOATING } true)
        false).float_width =
      (set_floating { w1 with float_state := FloatStates.FLOATING } true).surface_width ∧
    (set_floating (set_floating { w1 with float_state := FloatStates.FLOATING } true)
        false).float_height =
      (set_floating { w1 with float_state := FloatStates.FLOATING } true).surface_height :=
  floating_toggle_saves_size _ rfl rfl

/-- Claim C3: on a window in state FULLSCREEN, `set_fullscreen(false)`
delegates to `set_floating(false)` and leaves `float_state` equal to
NOT_FLOATING (not restored to the pre-fullscreen floating state). -/
theorem fullscreen_false_goes_not_floating (w : World) (hexn : w.exn = none)
    (hfs : w.float_state = FloatStates.FULLSCREEN) :
    set_fullscreen w false = set_floating w false ∧
    (set_fullscreen w false).float_state = FloatStates.NOT_FLOATING := by
  have hdeleg : set_fullscreen w false = set_floating w false := by
    rw [set_fullscreen]; simp [hexn, hfs]
  refine ⟨hdeleg, ?_⟩
  rw [hdeleg]
  cases hg : w.group <;> simp [set_floating, hexn, hfs, hg, raiseExn]

/-- Witness for C3 at a concrete fullscreen window. -/
theorem fullscreen_false_goes_not_floating_witness :
    set_fullscreen { w1 with float_state := FloatStates.FULLSCREEN } false =
      set_floating { w1 with float_state := FloatStates.FULLSCREEN } false ∧
    (set_fullscreen { w1 with float_state := FloatStates.FULLSCREEN } false).float_state =
      FloatStates.NOT_FLOATING :=
  fullscreen_false_goes_not_floating _ rfl rfl

/-- Claim C4 (code bug): `set_fullscreen(true)` and
`set_maximized(true)` on a window with no workspace (`_group = 0`)
raise an `AttributeError` evaluating `self.group.screen`, and on a
window whose group has no screen and with no locatable output they
raise on `screen.x`/`screen.dx` — instead of degrading gracefully by
skipping placement as the specification requires.  No placement is
performed and the float state is untouched, but an exception escapes. -/
theorem fullscreen_no_workspace_raises :
    (set_fullscreen w0 true).exn.isSome = true ∧
    (set_maximized w0 true).exn.isSome = true ∧
    (set_fullscreen w2 true).exn.isSome = true ∧
    (set_maximized w2 true).exn.isSome = true ∧
    (set_fullscreen w0 true).size_requests = w0.size_requests ∧
    (set_fullscreen w0 true).float_state = w0.float_state := by
  decide

theorem tweak_rect_nonneg (w : World) (x? y? : Option Int) (dx dy : Int)
    (w? h? : Option Int) (dw dh : Int) :
    0 ≤ (tweak_rect w x? y? dx dy w? h? dw dh).2.2.1 ∧
    0 ≤ (tweak_rect w x? y? dx dy w? h? dw dh).2.2.2 := by
  unfold tweak_rect
  dsimp only
  constructor <;> split <;> omega

theorem reconfigure_last_size (w : World) (x y wd ht : Int) (st : FloatStates)
    (hst : st ≠ FloatStates.MINIMIZED) :
    (reconfigure_floating w x y wd ht st).last_size = some (wd, ht) := by
  rw [reconfigure_floating, if_neg hst, place_above_none_eq]
  by_cases h : w.wid ∈ w.mapped_windows <;> simp [h, raiseExn]
  split
  · rfl
  · split <;> rfl

theorem tweak_float_last_size (w : World) (x? y? : Option Int) (dx dy : Int)
    (w? h? : Option Int) (dw dh : Int) (hexn : w.exn = none) :
    (tweak_float w x? y? dx dy w? h? dw dh).last_size =
      some ((tweak_rect w x? y? dx dy w? h? dw dh).2.2.1,
            (tweak_rect w x? y? dx dy w? h? dw dh).2.2.2) := by
  rw [tweak_float]
  simp only [hexn, Option.isSome_none, Bool.false_eq_true, if_false]
  cases hg : w.group with
  | none =>
    simp only [hg]
    exact reconfigure_last_size _ _ _ _ _ _ (by simp)
  | some g =>
    cases hscr : w.find_closest_screen (w.x + Int.fdiv w.surface_width 2)
        (w.y + Int.fdiv w.surface_height 2) with
    | none =>
      simp only [hg, hscr]
      exact reconfigure_last_size _ _ _ _ _ _ (by simp)
    | some s =>
      simp only [hg, hscr]
      split <;> exact reconfigure_last_size _ _ _ _ _ _ (by simp)

/-- Claim C6: the width and height `_tweak_float` computes and applies
are clamped to a minimum of 0 and never negative, for every combination
of explicit values and deltas; in particular `dw = -1000` on a 50-wide
window yields applied width 0. -/
theorem tweak_float_clamps_nonnegative (w : World) (x? y? : Option Int)
    (dx dy : Int) (w? h? : Option Int) (dw dh : Int) (hexn : w.exn = none) :
    (0 ≤ (tweak_rect w x? y? dx dy w? h? dw dh).2.2.1 ∧
     0 ≤ (tweak_rect w x? y? dx dy w? h? dw dh).2.2.2) ∧
    (tweak_float w x? y? dx dy w? h? dw dh).last_size =
      some ((tweak_rect w x? y? dx dy w? h? dw dh).2.2.1,
            (tweak_rect w x? y? dx dy w? h? dw dh).2.2.2) ∧
    (w.surface_width = 50 →
      (tweak_rect w none none 0 0 none none (-1000) 0).2.2.1 = 0) := by
  refine ⟨tweak_rect_nonneg w x? y? dx dy w? h? dw dh,
          tweak_float_last_size w x? y? dx dy w? h? dw dh hexn, ?_⟩
  intro h50
  unfold tweak_rect
  simp [h50]

/-- Witness for C6 at a concrete 50-wide window with `dw = -1000`. -/
theorem tweak_float_clamps_nonnegative_witness :
    (0 ≤ (tweak_rect w0 none none 0 0 none none (-1000) 0).2.2.1 ∧
     0 ≤ (tweak_rect w0 none none 0 0 none none (-1000) 0).2.2.2) ∧
    (tweak_float w0 none none 0 0 none none (-1000) 0).last_size =
      some ((tweak_rect w0 none none 0 0 none none (-1000) 0).2.2.1,
            (tweak_rect w0 none none 0 0 none none (-1000) 0).2.2.2) ∧
    (w0.surface_width = 50 →
      (tweak_rect w0 none none 0 0 none none (-1000) 0).2.2.1 = 0) :=
  tweak_float_clamps_nonnegative w0 none none 0 0 none none (-1000) 0 rfl

/-- Claim C7: `place` applies a margin — a scalar expanded to all four
sides, or 4-sided `[top, right, bottom, left]` — by shrinking the
rectangle as `x += left`, `y += top`, `width -= left + right`,
`height -= top + bottom`; in particular margin 10 on rectangle
(0, 0, 100, 100) yields applied rectangle (10, 10, 80, 80). -/
theorem place_margin_shrinks (w : World) (x y wd ht bw t r b l k : Int) :
    ((place w x y wd ht bw false (some (Margin.four t r b l))).x = x + l ∧
     (place w x y wd ht bw false (some (Margin.four t r b l))).y = y + t ∧
     (place w x y wd ht bw false (some (Margin.four t r b l))).last_size =
       some (wd - (r + l), ht - (t + b))) ∧
    ((place w x y wd ht bw false (some (Margin.scalar k))).x = x + k ∧
     (place w x y wd ht bw false (some (Margin.scalar k))).y = y + k ∧
     (place w x y wd ht bw false (some (Margin.scalar k))).last_size =
       some (wd - (k + k), ht - (k + k))) ∧
    ((place w 0 0 100 100 bw false (some (Margin.scalar 10))).x = 10 ∧
     (place w 0 0 100 100 bw false (some (Margin.scalar 10))).y = 10 ∧
     (place w 0 0 100 100 bw false (some (Margin.scalar 10))).last_size =
       some (80, 80)) := by
  refine ⟨⟨?_, ?_, ?_⟩, ⟨?_, ?_, ?_⟩, ⟨?_, ?_, ?_⟩⟩ <;>
    simp [place, Margin.sides]

/-- Claim C9: `set_minimized(true)` on a window not already MINIMIZED
unmaps the surface and sets `float_state` to MINIMIZED without invoking
placement (no size request) and without changing `float_x`, `float_y`,
`float_width`, `float_height`, `x` or `y`. -/
theorem minimized_true_hides_preserves_geometry (w : World)
    (hexn : w.exn = none) (hfs : w.float_state ≠ FloatStates.MINIMIZED) :
    (set_minimized w true).float_state = FloatStates.MINIMIZED ∧
    (set_minimized w true).mapped = false ∧
    (set_minimized w true).x = w.x ∧
    (set_minimized w true).y = w.y ∧
    (set_minimized w true).float_x = w.float_x ∧
    (set_minimized w true).float_y = w.float_y ∧
    (set_minimized w true).float_width = w.float_width ∧
    (set_minimized w true).float_height = w.float_height ∧
    (set_minimized w true).size_requests = w.size_requests ∧
    (set_minimized w true).last_size = w.last_size := by
  rw [set_minimized]
  simp only [hexn, Option.isSome_none, Bool.false_eq_true, if_false, if_true,
    ne_eq, hfs, not_false_iff]
  rw [enablefloating, reconfigure_floating, if_pos rfl, hide_eq]
  cases hm : w.mapped <;>
    simp [hm, update_tracker, hexn, hfs]

/-- Witness for C9 at a concrete non-minimized window. -/
theorem minimized_true_hides_preserves_geometry_witness :
    (set_minimized w1 true).float_state = FloatStates.MINIMIZED ∧
    (set_minimized w1 true).mapped = false ∧
    (set_minimized w1 true).x = w1.x ∧
    (set_minimized w1 true).y = w1.y ∧
    (set_minimized w1 true).float_x = w1.float_x ∧
    (set_minimized w1 true).float_y = w1.float_y ∧
    (set_minimized w1 true).float_width = w1.float_width ∧
    (set_minimized w1 true).float_height = w1.float_height ∧
    (set_minimized w1 true).size_requests = w1.size_requests ∧
    (set_minimized w1 true).last_size = w1.last_size :=
  minimized_true_hides_preserves_geometry w1 rfl (by decide)

/-- Claim C8: a first-level popup computes its constraint rectangle as
the owning output's geometry translated by the closest output point to
the anchor's desktop-space position (`box.x = output.x - lx`,
`box.y = output.y - ly`; coordinates are integral so rounding is the
identity), while a nested popup inherits its parent popup's output and
constraint rectangle directly; the returned box is the rectangle the
popup is unconstrained to. -/
theorem popup_constraint_box (env : LayoutEnv) (px py : Int) (geom : OutBox)
    (o : OutputM) (b : OutBox)
    (ho : env.output_at (env.closest_point (px + geom.x) (py + geom.y)).1
            (env.closest_point (px + geom.x) (py + geom.y)).2 = some o) :
    popup_init env (PopupParent.window px py) geom =
      some (o, { x := o.geometry.x - (env.closest_point (px + geom.x) (py + geom.y)).1,
                 y := o.geometry.y - (env.closest_point (px + geom.x) (py + geom.y)).2,
                 width := o.geometry.width, height := o.geometry.height }) ∧
    popup_init env (PopupParent.popup o b) geom = some (o, b) := by
  constructor
  · simp [popup_init, ho]
  · rfl

/-- Witness for C8 at a concrete layout: anchor local (5, 5) on a
window at desktop (100, 100), output at desktop origin (100, 0). -/
theorem popup_constraint_box_witness :
    popup_init env0 (PopupParent.window 100 100) geo0 =
      some (out0,
        { x := out0.geometry.x - (env0.closest_point (100 + geo0.x) (100 + geo0.y)).1,
          y := out0.geometry.y - (env0.closest_point (100 + geo0.x) (100 + geo0.y)).2,
          width := out0.geometry.width, height := out0.geometry.height }) ∧
    popup_init env0 (PopupParent.popup out0 bx0) geo0 = some (out0, bx0) :=
  popup_constraint_box env0 100 100 geo0 out0 bx0 rfl

/-- Claim C10: `place` with `above = true` unconditionally removes the
window from `core.mapped_windows` before appending, so it raises when
the window is absent from the stacking list; consequently
`set_floating(true)`, `set_fullscreen(true)` and `set_maximized(true)`
— which reach `place` with `above = true` via `_reconfigure_floating`
when a screen is available — fault on a window that is not mapped
rather than merely placing it. -/
theorem place_above_unmapped_raises (w : World) (g : Group) (s : Screen)
    (x y wd ht bw : Int) (hexn : w.exn = none)
    (hmem : w.wid ∉ w.mapped_windows)
    (hfs : w.float_state = FloatStates.NOT_FLOATING)
    (hg : w.group = some g) (hs : g.screen = some s) :
    (place w x y wd ht bw true none).exn.isSome = true ∧
    (set_floating w true).exn.isSome = true ∧
    (set_fullscreen w true).exn.isSome = true ∧
    (set_maximized w true).exn.isSome = true := by
  have hplace : ∀ (a b c d e : Int),
      (place w a b c d e true none).exn.isSome = true := by
    intro a b c d e
    rw [place_above_none_eq, if_neg hmem]
    rfl
  have hrec : ∀ (a b c d : Int) (st : FloatStates),
      st ≠ FloatStates.MINIMIZED →
      (reconfigure_floating w a b c d st).exn.isSome = true := by
    intro a b c d st hst
    rw [reconfigure_floating, if_neg hst]
    have := hplace a b c d w.borderwidth
    rw [if_pos this]
    exact this
  refine ⟨hplace x y wd ht bw, ?_, ?_, ?_⟩
  · rw [set_floating]
    simp only [hexn, Option.isSome_none, Bool.false_eq_true, if_false, hfs,
      and_self, if_true, hg, hs]
    exact hrec _ _ _ _ _ (by simp)
  · rw [set_fullscreen]
    simp only [hexn, Option.isSome_none, Bool.false_eq_true, if_false, if_true,
      hg, hs]
    exact hrec _ _ _ _ _ (by simp)
  · rw [set_maximized]
    simp only [hexn, Option.isSome_none, Bool.false_eq_true, if_false, if_true,
      hg, hs]
    exact hrec _ _ _ _ _ (by simp)

/-- Witness for C10 at a concrete unmapped window with a screen. -/
theorem place_above_unmapped_raises_witness :
    (place { w0 with group := some g0 } 0 0 10 10 1 true none).exn.isSome = true ∧
    (set_floating { w0 with group := some g0 } true).exn.isSome = true ∧
    (set_fullscreen { w0 with group := some g0 } true).exn.isSome = true ∧
    (set_maximized { w0 with group := some g0 } true).exn.isSome = true :=
  place_above_unmapped_raises { w0 with group := some g0 } g0 scr0 0 0 10 10 1
    rfl (by decide) rfl rfl rfl

theorem reconfigure_hooks_delta (w : World) (x y wd ht : Int)
    (st : FloatStates) (hexn : w.exn = none) :
    (reconfigure_floating w x y wd ht st).hooks_float_change =
      w.hooks_float_change +
        (if w.float_state = (reconfigure_floating w x y wd ht st).float_state
         then 0 else 1) := by
  by_cases hst : st = FloatStates.MINIMIZED
  · subst hst
    by_cases hm : w.mapped <;>
      by_cases hch : w.float_state = FloatStates.MINIMIZED <;>
      simp [reconfigure_floating, hide_eq, hm, hexn, hch, update_tracker]
  · by_cases hmem : w.wid ∈ w.mapped_windows <;>
      by_cases hch : w.float_state = st <;>
      simp [reconfigure_floating, place_above_none_eq, hst, hmem, hexn, hch,
        raiseExn]

/-- Counterexample to C5 as stated: on a window with no workspace in
state NOT_FLOATING, `set_floating(true)` effectively changes
`float_state` (to FLOATING) yet fires no `float_change` notification,
because the early-floating branch bypasses the common placement
routine. -/
theorem early_floating_fires_no_hook :
    (set_floating w0 true).float_state ≠ w0.float_state ∧
    (set_floating w0 true).hooks_float_change = w0.hooks_float_change := by
  decide

/-- Claim C5 (amended): for every window whose workspace has a screen,
each of the floating, fullscreen, maximized and minimized setters fires
the `float_change` notification exactly once when it effectively changes
`float_state` and not at all when the requested state equals the current
one; `set_floating(true)` invoked before the window has a workspace,
however, changes `float_state` to FLOATING without firing any
notification. -/
theorem float_change_once_per_effective_change :
    (∀ (w : World) (g : Group) (s : Screen) (op : SetterOp),
      w.exn = none → w.group = some g → g.screen = some s →
      (runSetter w op).hooks_float_change =
        w.hooks_float_change +
          (if w.float_state = (runSetter w op).float_state then 0 else 1)) ∧
    (∀ (w : World), w.exn = none → w.group = none →
      w.float_state = FloatStates.NOT_FLOATING →
      (set_floating w true).float_state = FloatStates.FLOATING ∧
      (set_floating w true).hooks_float_change = w.hooks_float_change) := by
  constructor
  · intro w g s op hexn hg hs
    have hfalse : (set_floating w false).hooks_float_change =
        w.hooks_float_change +
          (if w.float_state = (set_floating w false).float_state
           then 0 else 1) := by
      by_cases hnf : w.float_state = FloatStates.NOT_FLOATING
      · simp [set_floating, hexn, hnf]
      · by_cases hfl : w.float_state = FloatStates.FLOATING <;>
          simp [set_floating, hexn, hnf, hfl, hg, hs]
    cases op with
    | floating b =>
      cases b
      · exact hfalse
      · by_cases hnf : w.float_state = FloatStates.NOT_FLOATING
        · simp only [runSetter, set_floating, hexn, Option.isSome_none,
            Bool.false_eq_true, if_false, hnf, and_self, if_true, hg, hs,
            enablefloating]
          rw [← hnf]
          exact reconfigure_hooks_delta w _ _ _ _ _ hexn
        · simp [runSetter, set_floating, hexn, hnf]
    | fullscreen b =>
      cases b
      · by_cases hfu : w.float_state = FloatStates.FULLSCREEN
        · simpa [runSetter, set_fullscreen, hexn, hfu] using hfalse
        · simp [runSetter, set_fullscreen, hexn, hfu]
      · simp only [runSetter, set_fullscreen, hexn, Option.isSome_none,
          Bool.false_eq_true, if_false, if_true, hg, hs, enablefloating]
        exact reconfigure_hooks_delta w _ _ _ _ _ hexn
    | maximized b =>
      cases b
      · by_cases hmx : w.float_state = FloatStates.MAXIMIZED
        · simpa [runSetter, set_maximized, hexn, hmx] using hfalse
        · simp [runSetter, set_maximized, hexn, hmx]
      · simp only [runSetter, set_maximized, hexn, Option.isSome_none,
          Bool.false_eq_true, if_false, if_true, hg, hs, enablefloating]
        exact reconfigure_hooks_delta w _ _ _ _ _ hexn
    | minimized b =>
      cases b
      · by_cases hmn : w.float_state = FloatStates.MINIMIZED
        · simpa [runSetter, set_minimized, hexn, hmn] using hfalse
        · simp [runSetter, set_minimized, hexn, hmn]
      · by_cases hmn : w.float_state = FloatStates.MINIMIZED
        · simp [runSetter, set_minimized, hexn, hmn]
        · simp only [runSetter, set_minimized, hexn, Option.isSome_none,
            Bool.false_eq_true, if_false, if_true, ne_eq, hmn, not_false_iff,
            enablefloating]
          exact reconfigure_hooks_delta w _ _ _ _ _ hexn
  · intro w hexn hg hnf
    simp [set_floating, hexn, hg, hnf]

/-- Witness for the amended C5: an effective fullscreen transition on a
concrete window with a screen, and the concrete early-floating case. -/
theorem float_change_once_per_effective_change_witness :
    ((runSetter w1 (SetterOp.fullscreen true)).hooks_float_change =
      w1.hooks_float_change +
        (if w1.float_state = (runSetter w1 (SetterOp.fullscreen true)).float_state
         then 0 else 1)) ∧
    ((set_floating w0 true).float_state = FloatStates.FLOATING ∧
     (set_floating w0 true).hooks_float_change = w0.hooks_float_change) :=
  ⟨float_change_once_per_effective_change.1 w1 g0 scr0
      (SetterOp.fullscreen true) rfl rfl rfl,
   float_change_once_per_effective_change.2 w0 rfl rfl rfl⟩

end QtileWl
